import Mathlib

/-!
Shallow embedding of the GraphQL resolver layer of the sick-fits backend
(src/src/resolvers/Mutation.js and the Query resolver file).

Entities are Lean structures mirroring the Prisma datamodel shapes used by
the resolvers; the database is an explicit record of entity lists; each
resolver is a function from its arguments, the request context and the
database to a `RunResult`: the database after the call, the ordered list of
persistence-collaborator calls it issued, and either a result or the thrown
error message. JS `Date.now()` timestamps are `Int`; monetary amounts and
quantities are `Nat` (integer minor-currency units). The external payment
collaborator (stripe.charges.create) is a function parameter from the
requested amount and source token to a charge result.
-/

/-- An identity record (Prisma `User`). -/
structure User where
  id : Nat
  name : String
  email : String
  password : String
  permissions : List String
  resetToken : Option String
  resetTokenExpiry : Option Int
deriving Repr, DecidableEq

/-- A live `Item` record with its owning-user reference. -/
structure Item where
  id : Nat
  title : String
  description : String
  price : Nat
  image : String
  largeImage : String
  userId : Nat
deriving Repr, DecidableEq

/-- A `CartItem` row: quantity plus references to the owning user and the item. -/
structure CartItem where
  id : Nat
  quantity : Nat
  userId : Nat
  itemId : Nat
deriving Repr, DecidableEq

/-- An order item snapshot: all `Item` fields except the live item's `id`
(deleted by `createOrder` before persisting), plus quantity and the owning
user. The type has no item-id field, so a snapshot cannot reference a live
`Item` record. -/
structure OrderItem where
  title : String
  description : String
  price : Nat
  image : String
  largeImage : String
  quantity : Nat
  userId : Nat
deriving Repr, DecidableEq

/-- An `Order` record: total, external charge id, item snapshots, owner. -/
structure Order where
  id : Nat
  total : Nat
  charge : String
  items : List OrderItem
  userId : Nat
deriving Repr, DecidableEq

/-- The persistent state reached through `ctx.db`. -/
structure DB where
  users : List User
  items : List Item
  cartItems : List CartItem
  orders : List Order
deriving Repr, DecidableEq

/-- The request-scoped context: `ctx.request.userId` and `ctx.request.user`
(both absent on unauthenticated requests). -/
structure Ctx where
  userId : Option Nat
  user : Option User
deriving Repr, DecidableEq

deriving instance DecidableEq for Except

/-- Result of running a resolver: the database afterwards, the persistence
calls issued (in order), and the returned value or thrown error message. -/
structure RunResult (α : Type) where
  db : DB
  calls : List String
  res : Except String α
deriving Repr, DecidableEq

/-- A successful stripe charge: `{id, amount}`. -/
structure Charge where
  id : String
  amount : Nat
deriving Repr, DecidableEq

/-- One entry of the nested cart fetch in `createOrder`: the cart item's id
and quantity with its item joined in. -/
structure CartEntry where
  id : Nat
  quantity : Nat
  item : Item
deriving Repr, DecidableEq

/-- The cart relation fetched by `createOrder`'s `ctx.db.query.user` call:
the user's cart items with their nested item data joined by item id. -/
def cartView (db : DB) (uid : Nat) : List CartEntry :=
  db.cartItems.filterMap (fun c =>
    if c.userId == uid then
      (db.items.find? (fun it => it.id == c.itemId)).map
        (fun it => { id := c.id, quantity := c.quantity, item := it })
    else none)

/-- `user.cart.reduce((tally, cartItem) => tally + cartItem.item.price * cartItem.quantity, 0)`. -/
def cartTotal (db : DB) (uid : Nat) : Nat :=
  (cartView db uid).foldl (fun tally ce => tally + ce.item.price * ce.quantity) 0

/-- The order-item snapshot built per cart item in `createOrder`: spread of
the fetched item fields, quantity attached, owning user connected, and the
live item id deleted. -/
def orderSnapshot (uid : Nat) (ce : CartEntry) : OrderItem :=
  { title := ce.item.title
    description := ce.item.description
    price := ce.item.price
    image := ce.item.image
    largeImage := ce.item.largeImage
    quantity := ce.quantity
    userId := uid }

/-- `createOrder` (Mutation.js lines 239-303). Takes the payment collaborator
as a function, the `args.token` source, and the id the persistence layer
assigns to the new order. Steps: session check; fetch user with nested cart;
recompute the total; charge; build snapshots; create the order; delete the
cart items by the aggregated ids. -/
def createOrder (chargeFn : Nat → String → Except String Charge) (token : String)
    (newOrderId : Nat) (ctx : Ctx) (db : DB) : RunResult Order :=
  match ctx.userId with
  | none => ⟨db, [], .error "You must be logged in to complete this order!"⟩
  | some uid =>
    match db.users.find? (fun u => u.id == uid) with
    | none => ⟨db, ["query.user"], .error "TypeError: cannot read cart of null"⟩
    | some _ =>
      let amount := cartTotal db uid
      match chargeFn amount token with
      | .error e => ⟨db, ["query.user"], .error e⟩
      | .ok charge =>
        let orderItems := (cartView db uid).map (orderSnapshot uid)
        let order : Order :=
          { id := newOrderId, total := charge.amount, charge := charge.id
            items := orderItems, userId := uid }
        let db1 := { db with orders := db.orders ++ [order] }
        let cartItemIds := (cartView db uid).map (fun ce => ce.id)
        let db2 := { db1 with
          cartItems := db1.cartItems.filter (fun c => !(cartItemIds.contains c.id)) }
        ⟨db2, ["query.user", "mutation.createOrder", "mutation.deleteManyCartItems"],
          .ok order⟩

/-- `createItem` (Mutation.js lines 10-28): session check, then create the
item with the creating user connected, the persistence layer assigning the
new id. The argument fields are the item's scalar fields. -/
def createItem (title description : String) (price : Nat) (image largeImage : String)
    (newItemId : Nat) (ctx : Ctx) (db : DB) : RunResult Item :=
  match ctx.userId with
  | none => ⟨db, [], .error "You must be logged in to do that!"⟩
  | some uid =>
    let item : Item :=
      { id := newItemId, title := title, description := description, price := price
        image := image, largeImage := largeImage, userId := uid }
    ⟨{ db with items := db.items ++ [item] }, ["mutation.createItem"], .ok item⟩

/-- The persistence call issued by `updateItem`: the `data` payload and the
`where.id` selector. Arguments are modelled as an association list of field
names to values, since the resolver treats them generically. -/
structure UpdateItemCall where
  data : List (String × String)
  whereId : Option String
deriving Repr, DecidableEq

/-- The payload construction in `updateItem` (Mutation.js lines 29-41):
copy the args, delete the `id` key from the copy, and pass the copy as
`data` with `where.id` taken from the original args. -/
def updateItemCall (args : List (String × String)) : UpdateItemCall :=
  { data := args.filter (fun kv => kv.fst != "id")
    whereId := args.lookup "id" }

/-- `updateItem` as a resolver run: it performs no session or permission
check and immediately issues the persistence update; the untyped update
payload is recorded as the returned call rather than interpreted against
the typed `Item` rows. -/
def updateItem (args : List (String × String)) (_ctx : Ctx) (db : DB) :
    RunResult UpdateItemCall :=
  ⟨db, ["mutation.updateItem"], .ok (updateItemCall args)⟩

/-- `deleteItem` (Mutation.js lines 42-55): fetch the item with its owner,
compute `ownsItem` and `hasPermissions`, throw when `!ownsItem &&
hasPermissions`, otherwise delete. Accessing `.permissions` on an absent
`ctx.request.user` is a JS TypeError. -/
def deleteItem (argsId : Nat) (ctx : Ctx) (db : DB) : RunResult Item :=
  match db.items.find? (fun it => it.id == argsId) with
  | none => ⟨db, ["query.item"], .error "TypeError: cannot read user of null"⟩
  | some item =>
    match ctx.user with
    | none => ⟨db, ["query.item"], .error "TypeError: cannot read permissions of undefined"⟩
    | some u =>
      let ownsItem := ctx.userId == some item.userId
      let hasPermissions :=
        u.permissions.any (fun permission => ["ADMIN", "ITEMDELETE"].contains permission)
      if !ownsItem && hasPermissions then
        ⟨db, ["query.item"], .error "You don\x27t have permission to do that!"⟩
      else
        ⟨{ db with items := db.items.filter (fun it => it.id != argsId) },
          ["query.item", "mutation.deleteItem"], .ok item⟩

/-- The Prisma `users` filter in `resetPassword`: `resetToken` equals the
supplied token and `resetTokenExpiry_gte Date.now() - 3600000`. -/
def matchesReset (tok : String) (now : Int) (u : User) : Bool :=
  u.resetToken == some tok &&
    (match u.resetTokenExpiry with
     | none => false
     | some e => decide (now - 3600000 ≤ e))

/-- `resetPassword` (Mutation.js lines 127-163): password/confirm match
check, token lookup within the 1-hour window, then update the user by email
with the hashed new password and cleared token fields. The bcrypt hash is a
function parameter; the trailing JWT/cookie step touches no modelled state. -/
def resetPassword (password confirmPassword resetToken : String) (now : Int)
    (hash : String → String) (_ctx : Ctx) (db : DB) : RunResult User :=
  if password != confirmPassword then
    ⟨db, [], .error "Your passwords do not match"⟩
  else
    match (db.users.filter (matchesReset resetToken now)).head? with
    | none => ⟨db, ["query.users"], .error "This token is either invalid or expired!"⟩
    | some u =>
      let updated : User :=
        { u with password := hash password, resetToken := none, resetTokenExpiry := none }
      ⟨{ db with users := db.users.map (fun v =>
            if v.email == u.email then
              { v with password := hash password, resetToken := none, resetTokenExpiry := none }
            else v) },
        ["query.users", "mutation.updateUser"], .ok updated⟩

/-- Modelled from the spec: `hasPermission` lives in src/src/utils.js, which
is not under src/. Spec section 4.2: the permission gate fails with Forbidden
unless the identity permission set intersects the required roles. This is
the intersection test; its caller throws when it fails. -/
def hasPermissionOk (u : User) (required : List String) : Bool :=
  u.permissions.any (fun permission => required.contains permission)

/-- `updatePermissions` (Mutation.js lines 164-186): session check, fetch
the current user, permission gate on ADMIN/PERMISSIONUPDATE, then set the
target user's permissions. -/
def updatePermissions (argsPermissions : List String) (argsUserId : Nat)
    (ctx : Ctx) (db : DB) : RunResult User :=
  match ctx.userId with
  | none => ⟨db, [], .error "You must be logged in to do that!"⟩
  | some uid =>
    match db.users.find? (fun u => u.id == uid) with
    | none => ⟨db, ["query.user"], .error "TypeError: cannot read permissions of null"⟩
    | some currentUser =>
      if hasPermissionOk currentUser ["ADMIN", "PERMISSIONUPDATE"] then
        match db.users.find? (fun u => u.id == argsUserId) with
        | none => ⟨db, ["query.user"], .error "No Node for the model User found"⟩
        | some target =>
          ⟨{ db with users := db.users.map (fun u =>
                if u.id == argsUserId then { u with permissions := argsPermissions } else u) },
            ["query.user", "mutation.updateUser"],
            .ok { target with permissions := argsPermissions }⟩
      else
        ⟨db, ["query.user"], .error "You do not have sufficient permissions"⟩

/-- Modelled from the spec: the Prisma datamodel (not under src/) gives a
newly created `CartItem` its default quantity; spec section 3 has quantity
at least 1 with rows created on add-to-cart and incremented by 1 thereafter. -/
def defaultCartQuantity : Nat := 1

/-- `addToCart` (Mutation.js lines 187-218): session check; query the
user's cart rows for this item and take the first; if one exists, update
its quantity to quantity + 1; otherwise create a fresh cart item connecting
the user and the item, the persistence layer assigning the new id. -/
def addToCart (argsId newCartItemId : Nat) (ctx : Ctx) (db : DB) : RunResult CartItem :=
  match ctx.userId with
  | none => ⟨db, [], .error "You must be logged in to do that!"⟩
  | some uid =>
    match (db.cartItems.filter (fun c => c.userId == uid && c.itemId == argsId)).head? with
    | some existingCartItem =>
      ⟨{ db with cartItems := db.cartItems.map (fun c =>
            if c.id == existingCartItem.id then { c with quantity := c.quantity + 1 } else c) },
        ["query.cartItems", "mutation.updateCartItem"],
        .ok { existingCartItem with quantity := existingCartItem.quantity + 1 }⟩
    | none =>
      let fresh : CartItem :=
        { id := newCartItemId, quantity := defaultCartQuantity, userId := uid, itemId := argsId }
      ⟨{ db with cartItems := db.cartItems ++ [fresh] },
        ["query.cartItems", "mutation.createCartItem"], .ok fresh⟩

/-- `removeFromCart` (Mutation.js lines 219-238): query the cart item with
its owner; error when absent; throw unless the owner matches the session
user; then delete the cart item. -/
def removeFromCart (argsId : Nat) (ctx : Ctx) (db : DB) : RunResult CartItem :=
  match db.cartItems.find? (fun c => c.id == argsId) with
  | none => ⟨db, ["query.cartItem"], .error "No CartItem Found!"⟩
  | some cartItem =>
    if some cartItem.userId != ctx.userId then
      ⟨db, ["query.cartItem"], .error "Cheating??? :O"⟩
    else
      ⟨{ db with cartItems := db.cartItems.filter (fun c => c.id != argsId) },
        ["query.cartItem", "mutation.deleteCartItem"], .ok cartItem⟩

/-- The `order` query resolver (Query resolver file, lines 28-45): session
check; fetch the order; compute `ownsOrder` and ADMIN membership; throw when
`!ownsOrder || !hasPermissionToSeeOrder`; otherwise return the order. -/
def orderQuery (argsId : Nat) (ctx : Ctx) (db : DB) : RunResult Order :=
  match ctx.userId with
  | none => ⟨db, [], .error "You must be logged in"⟩
  | some uid =>
    match db.orders.find? (fun o => o.id == argsId) with
    | none => ⟨db, ["query.order"], .error "TypeError: cannot read user of null"⟩
    | some order =>
      match ctx.user with
      | none => ⟨db, ["query.order"], .error "TypeError: cannot read permissions of undefined"⟩
      | some u =>
        let ownsOrder := order.userId == uid
        let hasPermissionToSeeOrder := u.permissions.contains "ADMIN"
        if !ownsOrder || !hasPermissionToSeeOrder then
          ⟨db, ["query.order"], .error "You do not have permissions to see this order"⟩
        else
          ⟨db, ["query.order"], .ok order⟩

/-- Example identity owning the example cart and items. -/
def user1 : User :=
  { id := 1, name := "Ann", email := "ann@example.com", password := "hash1"
    permissions := ["USER"], resetToken := none, resetTokenExpiry := none }

/-- Example identity with no elevated roles and no ownership of user1's data. -/
def user2 : User :=
  { id := 2, name := "Bob", email := "bob@example.com", password := "hash2"
    permissions := ["USER"], resetToken := none, resetTokenExpiry := none }

/-- Example item priced 500 minor units, owned by user1. -/
def itemA : Item :=
  { id := 10, title := "A", description := "itemA", price := 500
    image := "a.jpg", largeImage := "a-lg.jpg", userId := 1 }

/-- Example item priced 1200 minor units, owned by user1. -/
def itemB : Item :=
  { id := 11, title := "B", description := "itemB", price := 1200
    image := "b.jpg", largeImage := "b-lg.jpg", userId := 1 }

/-- user1's cart row: quantity 2 of itemA. -/
def cartRow1 : CartItem := { id := 100, quantity := 2, userId := 1, itemId := 10 }

/-- user1's cart row: quantity 1 of itemB. -/
def cartRow2 : CartItem := { id := 101, quantity := 1, userId := 1, itemId := 11 }

/-- Example database: two users, two items, user1's two cart rows, no orders. -/
def exDB : DB :=
  { users := [user1, user2], items := [itemA, itemB]
    cartItems := [cartRow1, cartRow2], orders := [] }

/-- Authenticated context for user1. -/
def ctx1 : Ctx := { userId := some 1, user := some user1 }

/-- Authenticated context for user2. -/
def ctx2 : Ctx := { userId := some 2, user := some user2 }

/-- Unauthenticated context: no userId, no user attached. -/
def ctxAnon : Ctx := { userId := none, user := none }

/-- A payment collaborator that accepts every charge, echoing the amount
with charge id ch_1. -/
def chargeOk : Nat → String → Except String Charge :=
  fun amount _ => .ok { id := "ch_1", amount := amount }

/-- A payment collaborator that declines every charge. -/
def chargeDecline : Nat → String → Except String Charge :=
  fun _ _ => .error "Your card was declined."

/-- Example order owned by user1 (for the order-view query). -/
def orderZ : Order := { id := 5, total := 2200, charge := "ch_1", items := [], userId := 1 }

/-- Database holding only user1 and user1's order. -/
def dbOrders : DB := { users := [user1], items := [], cartItems := [], orders := [orderZ] }

/-- A fixed clock value for the reset-password scenarios. -/
def now0 : Int := 10000000

/-- Identity holding reset token tok123 whose expiry sits exactly at the
one-hour boundary now0 - 3600000. -/
def userBoundary : User :=
  { id := 3, name := "Carol", email := "carol@example.com", password := "oldhash"
    permissions := ["USER"], resetToken := some "tok123"
    resetTokenExpiry := some (now0 - 3600000) }

/-- Identity holding reset token tok123 whose expiry is one millisecond
older than the one-hour boundary. -/
def userExpired : User :=
  { id := 4, name := "Dan", email := "dan@example.com", password := "oldhash"
    permissions := ["USER"], resetToken := some "tok123"
    resetTokenExpiry := some (now0 - 3600001) }

/-- Database for the boundary reset scenario. -/
def dbBoundary : DB := { users := [userBoundary], items := [], cartItems := [], orders := [] }

/-- Database for the expired reset scenario. -/
def dbExpired : DB := { users := [userExpired], items := [], cartItems := [], orders := [] }

/-- A concrete stand-in for the bcrypt hash in witnesses. -/
def hashFn : String → String := fun s => "bc:" ++ s

/-- The charge the accepting collaborator returns for the example cart
(total 2200). -/
def chW : Charge := { id := "ch_1", amount := 2200 }

/-- The order record a successful `createOrder` run persists. -/
def mkOrder (oid : Nat) (ch : Charge) (db : DB) (uid : Nat) : Order :=
  { id := oid, total := ch.amount, charge := ch.id
    items := (cartView db uid).map (orderSnapshot uid), userId := uid }

theorem foldl_add_map_sum {α : Type} (f : α → Nat) (l : List α) (a : Nat) :
    l.foldl (fun t x => t + f x) a = a + (l.map f).sum := by
  induction l generalizing a with
  | nil => simp
  | cons x xs ih => simp [ih, Nat.add_assoc]

theorem cartTotal_eq_sum (db : DB) (uid : Nat) :
    cartTotal db uid = ((cartView db uid).map (fun ce => ce.item.price * ce.quantity)).sum := by
  unfold cartTotal
  rw [foldl_add_map_sum]
  simp

theorem createOrder_run_ok (chargeFn : Nat → String → Except String Charge)
    (token : String) (oid uid : Nat) (ctx : Ctx) (db : DB) (u : User) (ch : Charge)
    (hctx : ctx.userId = some uid)
    (hu : db.users.find? (fun x => x.id == uid) = some u)
    (hch : chargeFn (cartTotal db uid) token = .ok ch) :
    createOrder chargeFn token oid ctx db =
      ⟨{ db with
          orders := db.orders ++ [mkOrder oid ch db uid]
          cartItems := db.cartItems.filter
            (fun c => !(((cartView db uid).map (fun ce => ce.id)).contains c.id)) },
        ["query.user", "mutation.createOrder", "mutation.deleteManyCartItems"],
        .ok (mkOrder oid ch db uid)⟩ := by
  unfold createOrder
  rw [hctx]
  simp only [hu, hch, mkOrder]

theorem createOrder_run_declined (chargeFn : Nat → String → Except String Charge)
    (token : String) (oid uid : Nat) (ctx : Ctx) (db : DB) (u : User) (e : String)
    (hctx : ctx.userId = some uid)
    (hu : db.users.find? (fun x => x.id == uid) = some u)
    (hch : chargeFn (cartTotal db uid) token = .error e) :
    createOrder chargeFn token oid ctx db = ⟨db, ["query.user"], .error e⟩ := by
  unfold createOrder
  rw [hctx]
  simp only [hu, hch]

/-- C1: for every authenticated `createOrder` call that returns an order,
the amount submitted to the payment collaborator equals the sum of
item.price times quantity over the cart at aggregation time, and the
created order's `total` field equals exactly the amount the collaborator's
successful charge returned. -/
theorem createOrder_total_eq_cart_sum
    (chargeFn : Nat → String → Except String Charge) (token : String)
    (oid uid : Nat) (ctx : Ctx) (db : DB) (r : Order)
    (hctx : ctx.userId = some uid)
    (hres : (createOrder chargeFn token oid ctx db).res = .ok r) :
    ∃ ch : Charge,
      chargeFn (cartTotal db uid) token = .ok ch ∧
      r.total = ch.amount ∧
      cartTotal db uid =
        ((cartView db uid).map (fun ce => ce.item.price * ce.quantity)).sum := by
  unfold createOrder at hres
  rw [hctx] at hres
  cases hu : db.users.find? (fun x => x.id == uid) with
  | none => simp [hu] at hres
  | some u =>
    cases hch : chargeFn (cartTotal db uid) token with
    | error e => simp [hu, hch] at hres
    | ok ch =>
      simp [hu, hch] at hres
      refine ⟨ch, rfl, ?_, cartTotal_eq_sum db uid⟩
      rw [← hres]

/-- C2: when the payment collaborator declines the charge for an
authenticated `createOrder` call, the error is surfaced to the caller and
the persistent state is unchanged: no Order is created and no CartItem is
deleted. -/
theorem createOrder_charge_failure_no_effects
    (chargeFn : Nat → String → Except String Charge) (token : String)
    (oid uid : Nat) (ctx : Ctx) (db : DB) (u : User) (e : String)
    (hctx : ctx.userId = some uid)
    (hu : db.users.find? (fun x => x.id == uid) = some u)
    (hch : chargeFn (cartTotal db uid) token = .error e) :
    (createOrder chargeFn token oid ctx db).res = .error e ∧
    (createOrder chargeFn token oid ctx db).db = db ∧
    (createOrder chargeFn token oid ctx db).db.orders = db.orders ∧
    (createOrder chargeFn token oid ctx db).db.cartItems = db.cartItems := by
  rw [createOrder_run_declined chargeFn token oid uid ctx db u e hctx hu hch]
  exact ⟨rfl, rfl, rfl, rfl⟩

theorem mem_cartView_id (db : DB) (uid : Nat) (c : CartItem)
    (hc : c ∈ db.cartItems) (huid : c.userId = uid) (it : Item)
    (hit : db.items.find? (fun x => x.id == c.itemId) = some it) :
    c.id ∈ (cartView db uid).map (fun ce => ce.id) := by
  have hmem : ({ id := c.id, quantity := c.quantity, item := it } : CartEntry) ∈
      cartView db uid := by
    unfold cartView
    exact List.mem_filterMap.mpr ⟨c, hc, by simp [huid, hit]⟩
  exact List.mem_map.mpr ⟨_, hmem, rfl⟩

/-- C3: when the payment collaborator accepts the charge for an
authenticated `createOrder` call, exactly one Order is appended whose item
snapshots are the cart contents at aggregation time (quantities preserved
by `orderSnapshot`), and the CartItem rows deleted are exactly those whose
ids appear in the aggregated cart: every aggregated row is gone and every
other row survives. -/
theorem createOrder_success_effects
    (chargeFn : Nat → String → Except String Charge) (token : String)
    (oid uid : Nat) (ctx : Ctx) (db : DB) (u : User) (ch : Charge)
    (hctx : ctx.userId = some uid)
    (hu : db.users.find? (fun x => x.id == uid) = some u)
    (hch : chargeFn (cartTotal db uid) token = .ok ch) :
    (createOrder chargeFn token oid ctx db).res = .ok (mkOrder oid ch db uid) ∧
    (createOrder chargeFn token oid ctx db).db.orders =
      db.orders ++ [mkOrder oid ch db uid] ∧
    (mkOrder oid ch db uid).items = (cartView db uid).map (orderSnapshot uid) ∧
    (mkOrder oid ch db uid).items.length = (cartView db uid).length ∧
    (createOrder chargeFn token oid ctx db).db.cartItems =
      db.cartItems.filter
        (fun c => !(((cartView db uid).map (fun ce => ce.id)).contains c.id)) ∧
    (∀ c ∈ db.cartItems, c.userId = uid →
      (∃ it, db.items.find? (fun x => x.id == c.itemId) = some it) →
      ¬ c ∈ (createOrder chargeFn token oid ctx db).db.cartItems) ∧
    (∀ c ∈ db.cartItems, ¬ c.id ∈ (cartView db uid).map (fun ce => ce.id) →
      c ∈ (createOrder chargeFn token oid ctx db).db.cartItems) := by
  rw [createOrder_run_ok chargeFn token oid uid ctx db u ch hctx hu hch]
  refine ⟨rfl, rfl, rfl, by simp [mkOrder], rfl, ?_, ?_⟩
  · rintro c hc huid ⟨it, hit⟩ hmem
    have hid := mem_cartView_id db uid c hc huid it hit
    have h2 := (List.mem_filter.mp hmem).2
    simp at h2
    obtain ⟨ce, hce, hceid⟩ := List.mem_map.mp hid
    exact h2 ce hce hceid
  · intro c hc hmem
    refine List.mem_filter.mpr ⟨hc, ?_⟩
    simp
    intro x hx heq
    exact hmem (List.mem_map.mpr ⟨x, hx, heq⟩)

/-- C4: the claim says an identity that lacks every required role and does
not own the item is denied with Forbidden and the item is not modified. The
code checks `!ownsItem && hasPermissions`, so this identity is NOT denied:
evaluated at user2 (no ADMIN/ITEMDELETE role, not the owner of itemA),
`deleteItem` deletes itemA and returns it. -/
theorem deleteItem_nonowner_without_roles_deletes :
    itemA.userId ≠ user2.id ∧
    user2.permissions.any (fun p => ["ADMIN", "ITEMDELETE"].contains p) = false ∧
    (deleteItem 10 ctx2 exDB).res = .ok itemA ∧
    (deleteItem 10 ctx2 exDB).db.items = [itemB] := by decide

/-- C6: the claim says the single-order view succeeds whenever the identity
owns the order or holds a required role; in particular an owner without
ADMIN can view their own order. The code checks `!ownsOrder ||
!hasPermissionToSeeOrder`, so user1 — owner of orderZ but without ADMIN — is
denied. -/
theorem orderQuery_owner_without_admin_denied :
    orderZ.userId = user1.id ∧
    user1.permissions.contains "ADMIN" = false ∧
    (orderQuery 5 ctx1 dbOrders).res =
      .error "You do not have permissions to see this order" ∧
    (orderQuery 5 ctx1 dbOrders).db = dbOrders := by decide

/-- C5 counterexample: `updateItem` performs no session check at all: with
no userId attached, the call does not fail and the persistence update is
issued, so the claim that every mutation other than signup/signin fails
with Unauthenticated before any persistence call is false. -/
theorem updateItem_unauthenticated_reaches_persistence :
    ctxAnon.userId = none ∧
    (updateItem [("id", "9"), ("title", "T")] ctxAnon exDB).calls =
      ["mutation.updateItem"] ∧
    (updateItem [("id", "9"), ("title", "T")] ctxAnon exDB).res =
      .ok { data := [("title", "T")], whereId := some "9" } := by decide

/-- C5 amended: the mutations that do gate on the session — createItem,
updatePermissions, addToCart and createOrder — fail with the logged-in
error before any persistence call and leave the database unchanged when no
userId is attached; removeFromCart also rejects an unauthenticated caller
holding an existing cart item, but only after one persistence query. -/
theorem gated_mutations_require_login
    (ctx : Ctx) (db : DB) (h : ctx.userId = none)
    (title description image largeImage : String) (price nid : Nat)
    (perms : List String) (tuid aid ncid oid rid : Nat)
    (chargeFn : Nat → String → Except String Charge) (token : String) :
    createItem title description price image largeImage nid ctx db =
      ⟨db, [], .error "You must be logged in to do that!"⟩ ∧
    updatePermissions perms tuid ctx db =
      ⟨db, [], .error "You must be logged in to do that!"⟩ ∧
    addToCart aid ncid ctx db =
      ⟨db, [], .error "You must be logged in to do that!"⟩ ∧
    createOrder chargeFn token oid ctx db =
      ⟨db, [], .error "You must be logged in to complete this order!"⟩ ∧
    (∀ c, db.cartItems.find? (fun x => x.id == rid) = some c →
      removeFromCart rid ctx db =
        ⟨db, ["query.cartItem"], .error "Cheating??? :O"⟩) := by
  refine ⟨?_, ?_, ?_, ?_, ?_⟩
  · unfold createItem; rw [h]
  · unfold updatePermissions; rw [h]
  · unfold addToCart; rw [h]
  · unfold createOrder; rw [h]
  · intro c hc
    unfold removeFromCart
    rw [hc, h]
    simp

/-- C7: every item snapshot of a successfully created order is a
field-by-field copy of the corresponding cart entry's live item with the
quantity and the owning identity attached (the `OrderItem` shape carries no
live item id), and order records are untouched by any later item deletion,
so order history survives item deletion. -/
theorem createOrder_snapshots_decoupled
    (chargeFn : Nat → String → Except String Charge) (token : String)
    (oid uid : Nat) (ctx : Ctx) (db : DB) (u : User) (ch : Charge)
    (hctx : ctx.userId = some uid)
    (hu : db.users.find? (fun x => x.id == uid) = some u)
    (hch : chargeFn (cartTotal db uid) token = .ok ch) :
    (createOrder chargeFn token oid ctx db).res = .ok (mkOrder oid ch db uid) ∧
    (∀ oi ∈ (mkOrder oid ch db uid).items, ∃ ce ∈ cartView db uid,
      oi.title = ce.item.title ∧ oi.description = ce.item.description ∧
      oi.price = ce.item.price ∧ oi.image = ce.item.image ∧
      oi.largeImage = ce.item.largeImage ∧ oi.quantity = ce.quantity ∧
      oi.userId = uid) ∧
    (∀ (argsId2 : Nat) (ctx2 : Ctx) (db2 : DB),
      (deleteItem argsId2 ctx2 db2).db.orders = db2.orders) := by
  refine ⟨?_, ?_, ?_⟩
  · rw [createOrder_run_ok chargeFn token oid uid ctx db u ch hctx hu hch]
  · intro oi hoi
    obtain ⟨ce, hce, hsnap⟩ := List.mem_map.mp hoi
    exact ⟨ce, hce, by rw [← hsnap]; exact ⟨rfl, rfl, rfl, rfl, rfl, rfl, rfl⟩⟩
  · intro argsId2 ctx2 db2
    unfold deleteItem
    cases db2.items.find? (fun it => it.id == argsId2) with
    | none => rfl
    | some item =>
      cases ctx2.user with
      | none => rfl
      | some u2 =>
        by_cases hcond :
            (!(ctx2.userId == some item.userId) &&
              u2.permissions.any (fun permission =>
                ["ADMIN", "ITEMDELETE"].contains permission)) = true
        · simp only [hcond]; rfl
        · simp only [Bool.not_eq_true] at hcond; simp only [hcond]; rfl

/-- C8: password reset — a token all of whose candidate users carry an
expiry strictly older than now minus one hour is rejected with the
invalid-or-expired error; the filter accepts an expiry of exactly now minus
one hour (inclusive boundary); and on a successful reset the stored token
fields are cleared and the password replaced with the new hash. -/
theorem resetPassword_expiry_window
    (password confirmPassword resetToken : String) (now : Int)
    (hash : String → String) (ctx : Ctx) (db : DB)
    (hpw : password = confirmPassword) :
    ((∀ u ∈ db.users, u.resetToken = some resetToken →
        ∀ e, u.resetTokenExpiry = some e → e < now - 3600000) →
      (resetPassword password confirmPassword resetToken now hash ctx db).res =
        .error "This token is either invalid or expired!") ∧
    (∀ u : User, u.resetToken = some resetToken →
      u.resetTokenExpiry = some (now - 3600000) →
      matchesReset resetToken now u = true) ∧
    (∀ u, (db.users.filter (matchesReset resetToken now)).head? = some u →
      (resetPassword password confirmPassword resetToken now hash ctx db).res =
        .ok { u with password := hash password, resetToken := none,
                     resetTokenExpiry := none } ∧
      ∀ v ∈ (resetPassword password confirmPassword resetToken now hash ctx db).db.users,
        v.email = u.email →
        v.resetToken = none ∧ v.resetTokenExpiry = none ∧ v.password = hash password) := by
  subst hpw
  refine ⟨?_, ?_, ?_⟩
  · intro hall
    have hfilter : db.users.filter (matchesReset resetToken now) = [] := by
      rw [List.filter_eq_nil_iff]
      intro u hu
      unfold matchesReset
      cases htok : u.resetToken with
      | none => simp
      | some t =>
        by_cases ht : t = resetToken
        · subst ht
          cases hexp : u.resetTokenExpiry with
          | none => simp
          | some e =>
            have := hall u hu htok e hexp
            simp [not_le.mpr this]
        · simp [ht]
    unfold resetPassword
    simp [hfilter]
  · intro u htok hexp
    unfold matchesReset
    rw [htok, hexp]
    simp
  · intro u hu
    refine ⟨?_, ?_⟩
    · unfold resetPassword
      simp only [bne_self_eq_false, Bool.false_eq_true, if_false, hu]
    · intro v hv hemail
      unfold resetPassword at hv
      simp only [bne_self_eq_false, Bool.false_eq_true, if_false, hu] at hv
      obtain ⟨w, hw, hveq⟩ := List.mem_map.mp hv
      by_cases hwe : w.email = u.email
      · rw [← hveq]
        simp [hwe]
      · exfalso
        rw [← hveq] at hemail
        simp [hwe] at hemail

/-- C9: for an authenticated add-to-cart, when the user already has a cart
row for the item (the first row the query returns), that row's quantity is
incremented by exactly 1 and no new row is created (length preserved, other
rows untouched); when no such row exists, exactly one new row is appended
linking the identity and the item. -/
theorem addToCart_increment_or_create
    (argsId newCartItemId uid : Nat) (ctx : Ctx) (db : DB)
    (hctx : ctx.userId = some uid) :
    (∀ c, (db.cartItems.filter
        (fun x => x.userId == uid && x.itemId == argsId)).head? = some c →
      (addToCart argsId newCartItemId ctx db).res =
        .ok { c with quantity := c.quantity + 1 } ∧
      (addToCart argsId newCartItemId ctx db).db.cartItems =
        db.cartItems.map (fun x =>
          if x.id == c.id then { x with quantity := x.quantity + 1 } else x) ∧
      (addToCart argsId newCartItemId ctx db).db.cartItems.length =
        db.cartItems.length ∧
      (∀ x ∈ db.cartItems, x.id ≠ c.id →
        x ∈ (addToCart argsId newCartItemId ctx db).db.cartItems)) ∧
    ((db.cartItems.filter
        (fun x => x.userId == uid && x.itemId == argsId)).head? = none →
      (addToCart argsId newCartItemId ctx db).db.cartItems =
        db.cartItems ++ [{ id := newCartItemId, quantity := defaultCartQuantity,
                           userId := uid, itemId := argsId }] ∧
      (addToCart argsId newCartItemId ctx db).db.cartItems.length =
        db.cartItems.length + 1 ∧
      (addToCart argsId newCartItemId ctx db).res =
        .ok { id := newCartItemId, quantity := defaultCartQuantity,
              userId := uid, itemId := argsId }) := by
  constructor
  · intro c hc
    unfold addToCart
    rw [hctx]
    simp only [hc]
    refine ⟨by simp, by simp, by simp, ?_⟩
    intro x hx hne
    refine List.mem_map.mpr ⟨x, hx, ?_⟩
    simp [hne]
  · intro hc
    unfold addToCart
    rw [hctx]
    simp only [hc]
    exact ⟨by simp, by simp, by simp⟩

theorem lookup_filter_ne_id (args : List (String × String)) (k : String)
    (hk : k ≠ "id") :
    (args.filter (fun kv => kv.fst != "id")).lookup k = args.lookup k := by
  induction args with
  | nil => rfl
  | cons kv rest ih =>
    obtain ⟨a, b⟩ := kv
    by_cases h1 : a = "id"
    · subst h1
      have hf : (("id", b) :: rest).filter (fun kv => kv.fst != "id") =
          rest.filter (fun kv => kv.fst != "id") := by simp [List.filter_cons]
      rw [hf, ih, List.lookup_cons]
      have hkk : (k == "id") = false := beq_eq_false_iff_ne.mpr hk
      rw [hkk]
    · have hf : ((a, b) :: rest).filter (fun kv => kv.fst != "id") =
          (a, b) :: rest.filter (fun kv => kv.fst != "id") := by
        simp [List.filter_cons, h1]
      rw [hf, List.lookup_cons, List.lookup_cons]
      cases hka : k == a
      · exact ih
      · rfl

theorem lookup_id_filter_eq_none (args : List (String × String)) :
    (args.filter (fun kv => kv.fst != "id")).lookup "id" = none := by
  rw [List.lookup_eq_none_iff]
  intro p hp
  have h := List.of_mem_filter hp
  rw [bne_iff_ne] at h ⊢
  exact fun he => h he.symm

/-- C10: `updateItem` strips the `id` field from the update payload before
handing it to the persistence collaborator — the forwarded `data` carries
no `id` key, so the target's id is never modified — while every other
argument field is forwarded unchanged and the `where` selector uses the
original `args.id`. -/
theorem updateItem_strips_id_forwards_rest (args : List (String × String)) :
    (updateItemCall args).data.lookup "id" = none ∧
    (∀ k, k ≠ "id" → (updateItemCall args).data.lookup k = args.lookup k) ∧
    (updateItemCall args).whereId = args.lookup "id" ∧
    (∀ ctx : Ctx, ∀ db : DB,
      (updateItem args ctx db).res = .ok (updateItemCall args) ∧
      (updateItem args ctx db).db = db) := by
  refine ⟨lookup_id_filter_eq_none args, ?_, rfl, ?_⟩
  · intro k hk
    exact lookup_filter_ne_id args k hk
  · intro ctx db
    exact ⟨rfl, rfl⟩

/-- C1 witness: the spec example cart (500 times 2 plus 1200 times 1 equals
2200) with an accepting collaborator: the charge is requested at 2200 and
the order total equals the returned charge amount. -/
theorem createOrder_total_eq_cart_sum_witness :
    ∃ ch : Charge, chargeOk (cartTotal exDB 1) "tok" = .ok ch ∧
      (mkOrder 7 chW exDB 1).total = ch.amount ∧
      cartTotal exDB 1 =
        ((cartView exDB 1).map (fun ce => ce.item.price * ce.quantity)).sum :=
  createOrder_total_eq_cart_sum chargeOk "tok" 7 1 ctx1 exDB
    (mkOrder 7 chW exDB 1) rfl (by decide)

/-- C2 witness: the declining collaborator on the example cart surfaces the
decline and leaves the database unchanged. -/
theorem createOrder_charge_failure_no_effects_witness :
    (createOrder chargeDecline "tok" 7 ctx1 exDB).res =
      .error "Your card was declined." ∧
    (createOrder chargeDecline "tok" 7 ctx1 exDB).db = exDB ∧
    (createOrder chargeDecline "tok" 7 ctx1 exDB).db.orders = exDB.orders ∧
    (createOrder chargeDecline "tok" 7 ctx1 exDB).db.cartItems = exDB.cartItems :=
  createOrder_charge_failure_no_effects chargeDecline "tok" 7 1 ctx1 exDB user1
    "Your card was declined." rfl (by decide) rfl

/-- C3 witness: the accepting collaborator on the example cart creates
exactly one order with both snapshots and deletes exactly the two cart
rows. -/
theorem createOrder_success_effects_witness :
    (createOrder chargeOk "tok" 7 ctx1 exDB).res = .ok (mkOrder 7 chW exDB 1) ∧
    (createOrder chargeOk "tok" 7 ctx1 exDB).db.orders =
      exDB.orders ++ [mkOrder 7 chW exDB 1] ∧
    (mkOrder 7 chW exDB 1).items = (cartView exDB 1).map (orderSnapshot 1) ∧
    (mkOrder 7 chW exDB 1).items.length = (cartView exDB 1).length ∧
    (createOrder chargeOk "tok" 7 ctx1 exDB).db.cartItems =
      exDB.cartItems.filter
        (fun c => !(((cartView exDB 1).map (fun ce => ce.id)).contains c.id)) ∧
    (∀ c ∈ exDB.cartItems, c.userId = 1 →
      (∃ it, exDB.items.find? (fun x => x.id == c.itemId) = some it) →
      ¬ c ∈ (createOrder chargeOk "tok" 7 ctx1 exDB).db.cartItems) ∧
    (∀ c ∈ exDB.cartItems, ¬ c.id ∈ (cartView exDB 1).map (fun ce => ce.id) →
      c ∈ (createOrder chargeOk "tok" 7 ctx1 exDB).db.cartItems) :=
  createOrder_success_effects chargeOk "tok" 7 1 ctx1 exDB user1 chW
    rfl (by decide) (by decide)

/-- C5 witness: each gated mutation rejects the anonymous context before
touching persistence; removeFromCart rejects it after its lookup query. -/
theorem gated_mutations_require_login_witness :
    createItem "T" "D" 5 "i.jpg" "l.jpg" 42 ctxAnon exDB =
      ⟨exDB, [], .error "You must be logged in to do that!"⟩ ∧
    updatePermissions ["ADMIN"] 2 ctxAnon exDB =
      ⟨exDB, [], .error "You must be logged in to do that!"⟩ ∧
    addToCart 10 200 ctxAnon exDB =
      ⟨exDB, [], .error "You must be logged in to do that!"⟩ ∧
    createOrder chargeOk "tok" 7 ctxAnon exDB =
      ⟨exDB, [], .error "You must be logged in to complete this order!"⟩ ∧
    removeFromCart 100 ctxAnon exDB =
      ⟨exDB, ["query.cartItem"], .error "Cheating??? :O"⟩ := by
  have h := gated_mutations_require_login ctxAnon exDB rfl "T" "D" "i.jpg" "l.jpg"
    5 42 ["ADMIN"] 2 10 200 7 100 chargeOk "tok"
  exact ⟨h.1, h.2.1, h.2.2.1, h.2.2.2.1, h.2.2.2.2 cartRow1 (by decide)⟩

/-- C7 witness: on the example cart, both snapshots copy the item fields and
order history is untouched by item deletion. -/
theorem createOrder_snapshots_decoupled_witness :
    (createOrder chargeOk "tok" 7 ctx1 exDB).res = .ok (mkOrder 7 chW exDB 1) ∧
    (∀ oi ∈ (mkOrder 7 chW exDB 1).items, ∃ ce ∈ cartView exDB 1,
      oi.title = ce.item.title ∧ oi.description = ce.item.description ∧
      oi.price = ce.item.price ∧ oi.image = ce.item.image ∧
      oi.largeImage = ce.item.largeImage ∧ oi.quantity = ce.quantity ∧
      oi.userId = 1) ∧
    (∀ (argsId2 : Nat) (ctx2 : Ctx) (db2 : DB),
      (deleteItem argsId2 ctx2 db2).db.orders = db2.orders) :=
  createOrder_snapshots_decoupled chargeOk "tok" 7 1 ctx1 exDB user1 chW
    rfl (by decide) (by decide)

/-- C8 witness: the boundary expiry (now0 minus exactly one hour) passes the
filter and the reset succeeds with cleared fields, while the expiry one
millisecond older is rejected. -/
theorem resetPassword_expiry_window_witness :
    matchesReset "tok123" now0 userBoundary = true ∧
    (resetPassword "new" "new" "tok123" now0 hashFn ctxAnon dbBoundary).res =
      .ok { userBoundary with password := hashFn "new", resetToken := none,
                              resetTokenExpiry := none } ∧
    (resetPassword "new" "new" "tok123" now0 hashFn ctxAnon dbExpired).res =
      .error "This token is either invalid or expired!" := by
  have h := resetPassword_expiry_window "new" "new" "tok123" now0 hashFn
    ctxAnon dbBoundary rfl
  have h2 := resetPassword_expiry_window "new" "new" "tok123" now0 hashFn
    ctxAnon dbExpired rfl
  refine ⟨h.2.1 userBoundary rfl rfl, (h.2.2 userBoundary (by decide)).1, h2.1 ?_⟩
  intro u hu htok e he
  simp only [dbExpired, List.mem_singleton] at hu
  subst hu
  rw [show userExpired.resetTokenExpiry = some (now0 - 3600001) from rfl] at he
  have he2 : e = now0 - 3600001 := by
    injection he with h3
    exact h3.symm
  subst he2
  decide

/-- C9 witness: adding itemA already in user1's cart bumps row 100 from
quantity 2 to 3 with no new row; adding itemB to user2's empty cart appends
exactly one new row. -/
theorem addToCart_increment_or_create_witness :
    (addToCart 10 200 ctx1 exDB).res =
      .ok { cartRow1 with quantity := cartRow1.quantity + 1 } ∧
    (addToCart 10 200 ctx1 exDB).db.cartItems.length = exDB.cartItems.length ∧
    (addToCart 11 300 ctx2 exDB).db.cartItems =
      exDB.cartItems ++ [{ id := 300, quantity := defaultCartQuantity,
                           userId := 2, itemId := 11 }] ∧
    (addToCart 11 300 ctx2 exDB).res =
      .ok { id := 300, quantity := defaultCartQuantity, userId := 2, itemId := 11 } := by
  have h1 := (addToCart_increment_or_create 10 200 1 ctx1 exDB rfl).1
    cartRow1 (by decide)
  have h2 := (addToCart_increment_or_create 11 300 2 ctx2 exDB rfl).2 (by decide)
  exact ⟨h1.1, h1.2.2.1, h2.1, h2.2.2⟩

/-- C10 witness: on a concrete payload the forwarded data drops `id`, keeps
`title`, and the selector uses the original id. -/
theorem updateItem_strips_id_forwards_rest_witness :
    (updateItemCall [("id", "9"), ("title", "T")]).data.lookup "id" = none ∧
    (updateItemCall [("id", "9"), ("title", "T")]).data.lookup "title" = some "T" ∧
    (updateItemCall [("id", "9"), ("title", "T")]).whereId = some "9" := by
  have h := updateItem_strips_id_forwards_rest [("id", "9"), ("title", "T")]
  refine ⟨h.1, ?_, ?_⟩
  · rw [h.2.1 "title" (by decide)]
    decide
  · rw [h.2.2.1]
    decide
